import Mathlib

/-!
Verification of the push-to-talk dictation core: a shallow embedding of
the transcription consolidator (`processors/transcription_buffer.py`),
the rule-based formatter (`processors/auto_formatter.py`), the LLM
cleanup fallback (`processors/llm_cleanup.py`) and the push-to-talk
capture controller (`voice_dictation.py`), with theorems settling the
spec claims about them.

Python strings are modelled as `List Char`; the inputs exercised here
are ASCII, so the ASCII readings of `str.strip`, `\s`, `\w`,
`str.isalpha`, `str.upper` and `str.lower` coincide with Python's.
-/

/-- Python strings, modelled as lists of characters. -/
abbrev Str := List Char

/-- Character list of a string literal. -/
def chars (s : String) : Str := s.data

/-- Python whitespace for `str.strip()` and the regex class `\s`
(ASCII subset: space, tab, newline, carriage return, vertical tab,
form feed). -/
def pyIsSpace (c : Char) : Bool :=
  c = ' ' || c = '\t' || c = '\n' || c = '\r' || c = '\x0b' || c = '\x0c'

/-- Python `str.strip()`: drop leading and trailing whitespace. -/
def pyStrip (s : Str) : Str :=
  ((s.dropWhile pyIsSpace).reverse.dropWhile pyIsSpace).reverse

namespace TranscriptionBuffer

/- Embedding of `TranscriptionBufferProcessor` (`transcription_buffer.py`).
Frames are reduced to the three shapes the processor distinguishes:
`TranscriptionFrame`, `RTVIClientMessageFrame` (carrying its `type`
string) and any other frame.  The wall-clock timestamp written into the
consolidated frame is omitted from the model. -/

/-- Frames flowing through the dictation pipeline, as the buffer
processor distinguishes them. -/
inductive DFrame where
  | transcription (text : Str) (userId : String) (language : Option String)
  | clientMessage (msgType : String)
  | other
deriving DecidableEq

/-- Mutable fields of `TranscriptionBufferProcessor`. -/
structure BufferState where
  buffer : Str
  lastUserId : String
  lastLanguage : Option String
deriving DecidableEq

/-- Initial processor state (`__init__`). -/
def initBuffer : BufferState :=
  { buffer := [], lastUserId := "user", lastLanguage := none }

/-- `TranscriptionBufferProcessor.process_frame`: returns the updated
state and the list of frames pushed downstream. -/
def processFrame (s : BufferState) (f : DFrame) : BufferState × List DFrame :=
  match f with
  | DFrame.transcription text userId language =>
      if text = [] then (s, [])
      else
        ({ buffer := s.buffer ++ text, lastUserId := userId,
           lastLanguage := language }, [])
  | DFrame.clientMessage msgType =>
      if msgType = "stop-recording" then
        if pyStrip s.buffer = [] then (s, [])
        else
          ({ s with buffer := [] },
           [DFrame.transcription (pyStrip s.buffer) s.lastUserId s.lastLanguage])
      else (s, [DFrame.clientMessage msgType])
  | DFrame.other => (s, [DFrame.other])

/-- Run the processor over a list of frames, collecting everything it
pushes downstream. -/
def runFrames : BufferState → List DFrame → BufferState × List DFrame
  | s, [] => (s, [])
  | s, f :: fs =>
      ((runFrames (processFrame s f).1 fs).1,
       (processFrame s f).2 ++ (runFrames (processFrame s f).1 fs).2)

/-- A partial transcript fragment as delivered by the recognizer. -/
structure Frag where
  text : Str
  userId : String
  language : Option String

/-- View a fragment as the frame the recognizer emits. -/
def Frag.toFrame (f : Frag) : DFrame :=
  DFrame.transcription f.text f.userId f.language

/-- Concatenation of the fragments' texts in arrival order. -/
def concatTexts (fs : List Frag) : Str :=
  fs.foldr (fun f acc => f.text ++ acc) []

/-- Text carried by a frame (empty for non-transcription frames). -/
def frameText : DFrame → Str
  | DFrame.transcription t _ _ => t
  | _ => []

end TranscriptionBuffer

namespace AutoFormatter

/- Embedding of `AutoFormatterProcessor._format_text` and its helpers
(`auto_formatter.py`).  The regex operations are modelled directly:
`\b` is a transition between word (`\w`) and non-word characters,
`re.IGNORECASE` is ASCII case folding, `\s` is `pyIsSpace`. -/

/-- The regex class `\w` (ASCII reading): letters, digits, underscore. -/
def isWordChar (c : Char) : Bool := c.isAlphanum || c = '_'

/-- The punctuation class `[.,!?;:]` used by `_clean_whitespace`. -/
def isPunctC (c : Char) : Bool :=
  c = '.' || c = ',' || c = '!' || c = '?' || c = ';' || c = ':'

/-- The sentence-ending class `[.!?]` used by `_add_punctuation` and
`_capitalize_sentences`. -/
def sentenceEnd (c : Char) : Bool := c = '.' || c = '!' || c = '?'

/-- Case-insensitive literal match of `pat` against a prefix of `l`;
on success returns the text after the match. -/
def matchPatAt (pat l : Str) : Option Str :=
  if (l.take pat.length).map Char.toLower = pat.map Char.toLower then
    some (l.drop pat.length)
  else none

/-- A `\b` holds after the match when the following character (if any)
is a non-word character; all filler patterns end in a word character. -/
def boundaryAfter : Str → Bool
  | [] => true
  | c :: _ => !isWordChar c

/-- Scanner for `re.sub(r"\b<pat>\b", "", text, flags=re.IGNORECASE)`
with `pat = p :: ps` (all filler patterns are non-empty and begin and
end with word characters, so `\b` before the match holds exactly when
the previous character is not a word character).  `skip > 0` means the
scanner is inside a matched occurrence and drops the next `skip`
characters; `prevWord` is the wordness of the previously scanned
character (`false` at the start of the string). -/
def subFillerAux (p : Char) (ps : Str) : Nat → Bool → Str → Str
  | _, _, [] => []
  | skip + 1, _, c :: cs => subFillerAux p ps skip (isWordChar c) cs
  | 0, prevWord, c :: cs =>
    if prevWord then c :: subFillerAux p ps 0 (isWordChar c) cs
    else
      match matchPatAt (p :: ps) (c :: cs) with
      | some rest =>
          if boundaryAfter rest then
            subFillerAux p ps ps.length (isWordChar c) cs
          else c :: subFillerAux p ps 0 (isWordChar c) cs
      | none => c :: subFillerAux p ps 0 (isWordChar c) cs

/-- One filler-word substitution pass
(`re.sub(r"\b" + re.escape(filler) + r"\b", "", text, re.IGNORECASE)`). -/
def subFiller (pat text : Str) : Str :=
  match pat with
  | [] => text
  | p :: ps => subFillerAux p ps 0 false text

/-- `AutoFormatterProcessor.FILLER_WORDS`, in source listing order.
The source iterates a Python set whose order is unspecified; for the
inputs evaluated in this file the result is order-independent, because
removing one filler leaves the two flanking non-word characters
adjacent and so never creates a match of another filler pattern. -/
def fillerWords : List Str :=
  [chars ("um"), chars ("uh"), chars ("uhm"), chars ("umm"),
   chars ("ah"), chars ("er"), chars ("hmm"), chars ("hm"),
   chars ("like"), chars ("you know"), chars ("i mean"),
   chars ("sort of"), chars ("kind of"), chars ("basically"),
   chars ("actually"), chars ("literally")]

/-- `AutoFormatterProcessor._remove_filler_words`. -/
def removeFillerWords (text : Str) : Str :=
  fillerWords.foldl (fun t pat => subFiller pat t) text

/-- `re.sub(r"\s+", " ", text)`: each maximal whitespace run becomes a
single space (`prevSp` records whether the previous character was part
of a run already replaced). -/
def collapseWsAux : Bool → Str → Str
  | _, [] => []
  | prevSp, c :: cs =>
    if pyIsSpace c then
      if prevSp then collapseWsAux true cs
      else ' ' :: collapseWsAux true cs
    else c :: collapseWsAux false cs

/-- `re.sub(r"\s+([.,!?;:])", r"\1", text)`: a whitespace run
immediately followed by punctuation is removed entirely; `buf` holds
the whitespace run currently pending. -/
def rmSpaceBeforePunctAux : Str → Str → Str
  | buf, [] => buf
  | buf, c :: cs =>
    if pyIsSpace c then rmSpaceBeforePunctAux (buf ++ [c]) cs
    else if isPunctC c then c :: rmSpaceBeforePunctAux [] cs
    else buf ++ (c :: rmSpaceBeforePunctAux [] cs)

/-- `re.sub(r"([.,!?;:])([A-Za-z])", r"\1 \2", text)`: insert a space
between punctuation and a directly following ASCII letter. -/
def addSpaceAfterPunct : Str → Str
  | [] => []
  | [c] => [c]
  | c :: d :: cs =>
    if isPunctC c && (d.isLower || d.isUpper) then
      c :: ' ' :: addSpaceAfterPunct (d :: cs)
    else c :: addSpaceAfterPunct (d :: cs)

/-- `AutoFormatterProcessor._clean_whitespace`. -/
def cleanWhitespace (text : Str) : Str :=
  pyStrip (addSpaceAfterPunct (rmSpaceBeforePunctAux [] (collapseWsAux false text)))

/-- `AutoFormatterProcessor._add_punctuation`. -/
def addPunctuation (text : Str) : Str :=
  match text with
  | [] => []
  | _ =>
    if sentenceEnd (text.getLastD ' ') then text
    else text ++ ['.']

/-- Scanner state for `_capitalize_sentences`
(`re.split(r"([.!?]\s*)", text)` followed by capitalizing each part
whose first character is alphabetic): `chunkStart` is the beginning of
the first part, `afterPunct` is inside a separator (punctuation plus
its trailing `\s*` run), `normal` is the interior of a part. -/
inductive CapMode where
  | chunkStart
  | afterPunct
  | normal

/-- `AutoFormatterProcessor._capitalize_sentences`, as a single
left-to-right scan: the first character of each split part is
uppercased when alphabetic; separator characters pass through. -/
def capAux : CapMode → Str → Str
  | _, [] => []
  | CapMode.chunkStart, c :: cs =>
    if sentenceEnd c then c :: capAux CapMode.afterPunct cs
    else if c.isAlpha then c.toUpper :: capAux CapMode.normal cs
    else c :: capAux CapMode.normal cs
  | CapMode.afterPunct, c :: cs =>
    if sentenceEnd c then c :: capAux CapMode.afterPunct cs
    else if pyIsSpace c then c :: capAux CapMode.afterPunct cs
    else if c.isAlpha then c.toUpper :: capAux CapMode.normal cs
    else c :: capAux CapMode.normal cs
  | CapMode.normal, c :: cs =>
    if sentenceEnd c then c :: capAux CapMode.afterPunct cs
    else c :: capAux CapMode.normal cs

/-- `AutoFormatterProcessor._capitalize_sentences`. -/
def capitalizeSentences (text : Str) : Str := capAux CapMode.chunkStart text

/-- `AutoFormatterProcessor._format_text`: the full rule-based cleanup
pass (`Clean`). -/
def formatText (text : Str) : Str :=
  if text = [] || pyStrip text = [] then text
  else
    pyStrip (capitalizeSentences (addPunctuation (cleanWhitespace
      (removeFillerWords text))))

end AutoFormatter

namespace LLMCleanup

/- Embedding of `LLMCleanupProcessor._cleanup_text` (`llm_cleanup.py`).
The external chat-completion call is modelled by its outcome: an
exception (`Except.error`), or a response whose message content is
`None` or a string.  Python truthiness `if cleaned:` is false exactly
for `None` and the empty string. -/

/-- `LLMCleanupProcessor._cleanup_text`: total in the model — every
outcome of the external call yields a returned string, never an
exception. -/
def cleanupText (response : Except Unit (Option Str)) (text : Str) : Str :=
  match response with
  | Except.error _ => text
  | Except.ok none => text
  | Except.ok (some content) =>
      if content = [] then text else pyStrip content

end LLMCleanup

namespace Controller

/- Embedding of `DictationController` (`voice_dictation.py`) together
with the stream-readiness notification from
`dictation_service._wait_for_stream_and_pause`.  Only hotkey edges are
modelled (`on_press`/`on_release` ignore every other key).  The PyAudio
stream is reduced to its `is_active` flag: it is opened running, which
is why `_wait_for_stream_and_pause` pauses it once it exists;
`_get_audio_stream` yields a handle only when a transport is set and
`_stream_ready` has been signalled. -/

/-- A lifecycle call actually issued on the PyAudio stream:
`stream.start_stream()` (Resume) or `stream.stop_stream()` (Pause). -/
inductive StreamCall where
  | resume
  | pause
deriving DecidableEq

/-- Mutable fields of `DictationController`, plus the active flag of
the underlying PyAudio stream and the hotkey listener's running flag. -/
structure ControllerState where
  isRecording : Bool
  streamReady : Bool
  hasTransport : Bool
  streamActive : Bool
  listenerRunning : Bool
deriving DecidableEq

/-- State after `main` constructs the controller with a transport,
starts the listener and the transport opens its (running) stream. -/
def initialState : ControllerState :=
  { isRecording := false, streamReady := false, hasTransport := true,
    streamActive := true, listenerRunning := true }

/-- `DictationController._get_audio_stream`: whether a stream handle is
obtained (transport set and `_stream_ready`). -/
def getAudioStream (s : ControllerState) : Bool :=
  s.hasTransport && s.streamReady

/-- `DictationController._start_stream`: `stream.start_stream()` only
when a handle exists and the stream is not active. -/
def startStream (s : ControllerState) : ControllerState × List StreamCall :=
  if getAudioStream s && !s.streamActive then
    ({ s with streamActive := true }, [StreamCall.resume])
  else (s, [])

/-- `DictationController._pause_stream`: `stream.stop_stream()` only
when a handle exists and the stream is active. -/
def pauseStream (s : ControllerState) : ControllerState × List StreamCall :=
  if getAudioStream s && s.streamActive then
    ({ s with streamActive := false }, [StreamCall.pause])
  else (s, [])

/-- `DictationController.mark_stream_ready`: record readiness, then
pause the stream initially and wait for the hotkey. -/
def markStreamReady (s : ControllerState) : ControllerState × List StreamCall :=
  pauseStream { s with streamReady := true }

/-- `DictationController.on_press` for the configured hotkey. -/
def onPress (s : ControllerState) : ControllerState × List StreamCall :=
  if !s.isRecording then startStream { s with isRecording := true }
  else (s, [])

/-- `DictationController.on_release` for the configured hotkey. -/
def onRelease (s : ControllerState) : ControllerState × List StreamCall :=
  if s.isRecording then pauseStream { s with isRecording := false }
  else (s, [])

/-- `DictationController.stop_listening`, the shutdown path run by
`main`'s `finally` block: stops the hotkey listener and nothing else. -/
def stopListening (s : ControllerState) : ControllerState × List StreamCall :=
  ({ s with listenerRunning := false }, [])

/-- The edge-triggered signals reaching the controller: hotkey press,
hotkey release, and the one-shot stream-ready notification. -/
inductive Event where
  | press
  | release
  | ready
deriving DecidableEq

/-- Dispatch one event to its handler. -/
def stepC (s : ControllerState) (e : Event) : ControllerState × List StreamCall :=
  match e with
  | Event.press => onPress s
  | Event.release => onRelease s
  | Event.ready => markStreamReady s

/-- Run a sequence of events, collecting every stream lifecycle call in
order of issue. -/
def runC : ControllerState → List Event → ControllerState × List StreamCall
  | s, [] => (s, [])
  | s, e :: es =>
      ((runC (stepC s e).1 es).1, (stepC s e).2 ++ (runC (stepC s e).1 es).2)

/-- A call list alternates starting from an optional previous call:
no two consecutive equal calls. -/
def altFromB : Option StreamCall → List StreamCall → Bool
  | _, [] => true
  | none, c :: cs => altFromB (some c) cs
  | some a, c :: cs => if a = c then false else altFromB (some c) cs

/-- The call that the stream's current active flag implies was (in
effect) the last one: an active stream behaves as after a Resume, a
paused one as after a Pause. -/
def prevCall (s : ControllerState) : StreamCall :=
  if s.streamActive then StreamCall.resume else StreamCall.pause

end Controller

/-- The end-of-utterance scenario of the spec: press, fragments
"um ", " so ", "the meeting is at noon", release (stop-recording). -/
def scenarioFrames : List TranscriptionBuffer.DFrame :=
  [TranscriptionBuffer.DFrame.transcription (chars ("um ")) "user" none,
   TranscriptionBuffer.DFrame.transcription (chars (" so ")) "user" none,
   TranscriptionBuffer.DFrame.transcription (chars ("the meeting is at noon")) "user" none,
   TranscriptionBuffer.DFrame.clientMessage ("stop-recording")]

section Theorems

open TranscriptionBuffer AutoFormatter LLMCleanup Controller

/-- Running the buffer processor over a concatenation of frame lists
composes the runs. -/
theorem runFrames_append (xs ys : List DFrame) (s : BufferState) :
    runFrames s (xs ++ ys) =
      ((runFrames (runFrames s xs).1 ys).1,
       (runFrames s xs).2 ++ (runFrames (runFrames s xs).1 ys).2) := by
  induction xs generalizing s with
  | nil => simp [runFrames]
  | cons x xs ih => simp [runFrames, ih, List.append_assoc]

/-- Delivering fragments appends their texts to the buffer in arrival
order, with no separators, and emits nothing. -/
theorem runFrames_frags (fs : List Frag) (s : BufferState) :
    (runFrames s (fs.map Frag.toFrame)).1.buffer = s.buffer ++ concatTexts fs ∧
      (runFrames s (fs.map Frag.toFrame)).2 = [] := by
  induction fs generalizing s with
  | nil => simp [runFrames, concatTexts]
  | cons f fs ih =>
      by_cases h : f.text = []
      · simpa [runFrames, processFrame, Frag.toFrame, concatTexts, h]
          using ih s
      · simpa [runFrames, processFrame, Frag.toFrame, concatTexts, h]
          using ih { buffer := s.buffer ++ f.text, lastUserId := f.userId,
                     lastLanguage := f.language }

/-- Each controller step either touches the stream not at all, or
issues one Resume on an inactive stream, or one Pause on an active
stream. -/
theorem stepC_calls (s : ControllerState) (e : Event) :
    ((stepC s e).2 = [] ∧ (stepC s e).1.streamActive = s.streamActive)
    ∨ ((stepC s e).2 = [StreamCall.resume] ∧ s.streamActive = false
        ∧ (stepC s e).1.streamActive = true)
    ∨ ((stepC s e).2 = [StreamCall.pause] ∧ s.streamActive = true
        ∧ (stepC s e).1.streamActive = false) := by
  cases e <;>
    simp only [stepC, onPress, onRelease, markStreamReady, startStream,
      pauseStream, getAudioStream] <;>
    split_ifs <;> simp_all

/-- The stream calls issued from any state alternate, starting against
the call implied by the stream's current active flag. -/
theorem runC_alt (es : List Event) : ∀ s : ControllerState,
    altFromB (some (prevCall s)) (runC s es).2 = true := by
  induction es with
  | nil => intro s; rfl
  | cons e es ih =>
    intro s
    rcases stepC_calls s e with ⟨h1, h2⟩ | ⟨h1, h2, h3⟩ | ⟨h1, h2, h3⟩
    · have hp : prevCall (stepC s e).1 = prevCall s := by
        simp [prevCall, h2]
      simpa [runC, h1, hp] using ih (stepC s e).1
    · have hp : prevCall (stepC s e).1 = StreamCall.resume := by
        simp [prevCall, h3]
      have h0 : prevCall s = StreamCall.pause := by simp [prevCall, h2]
      simpa [runC, h1, h0, altFromB, hp] using ih (stepC s e).1
    · have hp : prevCall (stepC s e).1 = StreamCall.pause := by
        simp [prevCall, h3]
      have h0 : prevCall s = StreamCall.resume := by simp [prevCall, h2]
      simpa [runC, h1, h0, altFromB, hp] using ih (stepC s e).1

/-- Alternation against a previous call implies plain alternation. -/
theorem altFromB_of_some {a : StreamCall} {l : List StreamCall}
    (h : altFromB (some a) l = true) : altFromB none l = true := by
  cases l with
  | nil => rfl
  | cons c cs =>
    simp only [altFromB] at h ⊢
    split at h
    · exact absurd h (by simp)
    · exact h

/-- Before the stream-ready signal, no handler can reach the stream:
press/release events issue no calls and leave readiness unset. -/
theorem runC_no_ready (es : List Event) : ∀ s : ControllerState,
    s.streamReady = false → (∀ e ∈ es, e ≠ Event.ready) →
    (runC s es).2 = [] ∧ (runC s es).1.streamReady = false := by
  induction es with
  | nil => intro s h _; exact ⟨rfl, h⟩
  | cons e es ih =>
    intro s h hr
    have he : e ≠ Event.ready := hr e (List.mem_cons_self e es)
    have hstep : (stepC s e).2 = [] ∧ (stepC s e).1.streamReady = false := by
      cases e with
      | press =>
          simp only [stepC, onPress, startStream, getAudioStream, h]
          split_ifs <;> simp_all
      | release =>
          simp only [stepC, onRelease, pauseStream, getAudioStream, h]
          split_ifs <;> simp_all
      | ready => exact absurd rfl he
    have := ih (stepC s e).1 hstep.2 (fun x hx => hr x (List.mem_cons_of_mem e hx))
    simp [runC, hstep.1, this.1, this.2]

/-- C1: for every fragment sequence delivered to the consolidator from
its initial state followed by one stop-recording signal, the downstream
output is exactly one consolidated frame whose text is the
whitespace-trimmed concatenation of the fragment texts in arrival order
(no separators inserted), and nothing when that trimmed concatenation
is empty — never more than one frame per signal. -/
theorem C1_consolidated_utterance (fs : List Frag) :
    ((runFrames initBuffer
        (fs.map Frag.toFrame ++ [DFrame.clientMessage ("stop-recording")])).2.map
      frameText)
      = if pyStrip (concatTexts fs) = [] then []
        else [pyStrip (concatTexts fs)] := by
  obtain ⟨hbuf, hout⟩ := runFrames_frags fs initBuffer
  have hbuf' : (runFrames initBuffer (fs.map Frag.toFrame)).1.buffer
      = concatTexts fs := by
    simpa [initBuffer] using hbuf
  rw [runFrames_append, hout]
  by_cases h : pyStrip (concatTexts fs) = [] <;>
    simp [runFrames, processFrame, hbuf', h, frameText]

/-- C2 counterexample: a press arrives before the stream-ready signal
(the controller is armed, `is_recording = true`); when the ready signal
then arrives, the code issues a Pause — not the Resume the claim
requires — and the stream ends inactive, so capture never starts. -/
theorem C2_counterexample :
    (runC initialState [Event.press]).1.isRecording = true
    ∧ (runC initialState [Event.press, Event.ready]).2 = [StreamCall.pause]
    ∧ (runC initialState [Event.press, Event.ready]).1.streamActive = false := by
  decide

/-- C2 amended: if the controller is armed (recording flag set, with a
transport) when the stream-ready signal arrives, `mark_stream_ready`
pauses the stream (emitting a Pause exactly when the stream was
active), never calls Resume, leaves the stream inactive and the
recording flag set: the late-arriving ready signal does not start
capture. -/
theorem C2_ready_while_armed_pauses (s : ControllerState)
    (harm : s.isRecording = true) (ht : s.hasTransport = true) :
    (stepC s Event.ready).2
        = (if s.streamActive then [StreamCall.pause] else [])
    ∧ (stepC s Event.ready).1.streamActive = false
    ∧ (stepC s Event.ready).1.isRecording = true
    ∧ (stepC s Event.ready).2.count StreamCall.resume = 0 := by
  simp only [stepC, markStreamReady, pauseStream, getAudioStream, ht]
  by_cases h : s.streamActive <;> simp [h, harm]

/-- C2 witness: the amended statement at the armed, not-yet-ready
state with an active stream. -/
theorem C2_ready_while_armed_pauses_witness :
    (stepC { isRecording := true, streamReady := false, hasTransport := true,
             streamActive := true, listenerRunning := true } Event.ready).2
        = (if true then [StreamCall.pause] else [])
    ∧ (stepC { isRecording := true, streamReady := false, hasTransport := true,
               streamActive := true, listenerRunning := true } Event.ready).1.streamActive = false
    ∧ (stepC { isRecording := true, streamReady := false, hasTransport := true,
               streamActive := true, listenerRunning := true } Event.ready).1.isRecording = true
    ∧ (stepC { isRecording := true, streamReady := false, hasTransport := true,
               streamActive := true, listenerRunning := true } Event.ready).2.count
        StreamCall.resume = 0 :=
  C2_ready_while_armed_pauses
    { isRecording := true, streamReady := false, hasTransport := true,
      streamActive := true, listenerRunning := true } rfl rfl

/-- C3: the rule-based cleanup is not idempotent — on "sort  of" (two
spaces) the first pass removes no filler (the two spaces defeat the
word-boundary pattern), collapses the whitespace and yields "Sort of.",
in which the second pass then finds and removes the filler "sort of",
yielding "." ≠ "Sort of.". -/
theorem C3_format_not_idempotent :
    formatText (chars ("sort  of")) = chars ("Sort of.")
    ∧ formatText (formatText (chars ("sort  of"))) = chars (".")
    ∧ formatText (formatText (chars ("sort  of")))
        ≠ formatText (chars ("sort  of")) := by decide

/-- C4: if the external cleanup call raises, or returns a response with
no content or empty content, `_cleanup_text` returns the original text
unmodified; the model is a total function, so no error propagates. -/
theorem C4_cleanup_fallback (text : Str) :
    cleanupText (Except.error ()) text = text
    ∧ cleanupText (Except.ok none) text = text
    ∧ cleanupText (Except.ok (some [])) text = text := by
  simp [cleanupText]

/-- C5: over every event sequence from the initial state the issued
stream calls alternate — never two Resumes without an intervening
Pause, nor two Pauses without an intervening Resume — and a press while
already recording, or a release while already idle, is ignored with no
state change and no call. -/
theorem C5_no_duplicate_lifecycle_calls :
    (∀ es : List Event, altFromB none (runC initialState es).2 = true)
    ∧ (∀ s : ControllerState, s.isRecording = true →
        stepC s Event.press = (s, []))
    ∧ (∀ s : ControllerState, s.isRecording = false →
        stepC s Event.release = (s, [])) := by
  refine ⟨fun es => altFromB_of_some (runC_alt es initialState), ?_, ?_⟩
  · intro s h
    simp [stepC, onPress, h]
  · intro s h
    simp [stepC, onRelease, h]

/-- C5 witness: alternation on a concrete event sequence, a re-entrant
press on a recording state, and a release on the idle initial state. -/
theorem C5_no_duplicate_lifecycle_calls_witness :
    altFromB none (runC initialState
      [Event.ready, Event.press, Event.press, Event.release,
       Event.release, Event.press]).2 = true
    ∧ stepC { isRecording := true, streamReady := true, hasTransport := true,
              streamActive := true, listenerRunning := true } Event.press
        = ({ isRecording := true, streamReady := true, hasTransport := true,
             streamActive := true, listenerRunning := true }, [])
    ∧ stepC initialState Event.release = (initialState, []) :=
  ⟨C5_no_duplicate_lifecycle_calls.1
      [Event.ready, Event.press, Event.press, Event.release,
       Event.release, Event.press],
   C5_no_duplicate_lifecycle_calls.2.1
      { isRecording := true, streamReady := true, hasTransport := true,
        streamActive := true, listenerRunning := true } rfl,
   C5_no_duplicate_lifecycle_calls.2.2 initialState rfl⟩

/-- C6: for any sequence of hotkey edges with no stream-ready signal
among them, the controller issues zero Resume and zero Pause calls on
the stream — an armed session released before readiness never touches
the resource. -/
theorem C6_dropped_armed_session (es : List Event)
    (h : ∀ e ∈ es, e ≠ Event.ready) :
    (runC initialState es).2 = [] :=
  (runC_no_ready es initialState rfl h).1

/-- C6 witness: press then release before the ready signal issues no
stream calls. -/
theorem C6_dropped_armed_session_witness :
    (runC initialState [Event.press, Event.release]).2 = [] :=
  C6_dropped_armed_session [Event.press, Event.release] (by decide)

/-- C7: a stop-recording signal arriving while the buffer trims to
empty (empty or whitespace-only) emits nothing downstream and leaves
the processor state unchanged. -/
theorem C7_empty_flush_noop (s : BufferState)
    (h : pyStrip s.buffer = []) :
    processFrame s (DFrame.clientMessage ("stop-recording")) = (s, []) := by
  simp [processFrame, h]

/-- C7 witness: the empty flush at a whitespace-only buffer. -/
theorem C7_empty_flush_noop_witness :
    processFrame { buffer := chars (" "), lastUserId := "user",
                   lastLanguage := none }
        (DFrame.clientMessage ("stop-recording"))
      = ({ buffer := chars (" "), lastUserId := "user",
           lastLanguage := none }, []) :=
  C7_empty_flush_noop
    { buffer := chars (" "), lastUserId := "user", lastLanguage := none }
    (by decide)

/-- C8 counterexample: in the spec scenario (fragments "um ", " so ",
"the meeting is at noon", then stop-recording) the flushed utterance is
"um  so the meeting is at noon", but the rule-based cleanup applied to
it does not yield "The meeting is at noon." — "so" is not in
`FILLER_WORDS` and survives. -/
theorem C8_counterexample :
    (runFrames initBuffer scenarioFrames).2.map frameText
        = [chars ("um  so the meeting is at noon")]
    ∧ formatText (chars ("um  so the meeting is at noon"))
        ≠ chars ("The meeting is at noon.") := by decide

/-- C8 amended: in the scenario the buffer accumulates to
"um  so the meeting is at noon", the flush emits exactly that (already
trimmed) string, and the rule-based cleanup yields
"So the meeting is at noon." — "so" is kept because it is not a filler
word. -/
theorem C8_scenario_keeps_so :
    (runFrames initBuffer (scenarioFrames.take 3)).1.buffer
        = chars ("um  so the meeting is at noon")
    ∧ (runFrames initBuffer scenarioFrames).2.map frameText
        = [pyStrip (chars ("um  so the meeting is at noon"))]
    ∧ formatText (chars ("um  so the meeting is at noon"))
        = chars ("So the meeting is at noon.") := by decide

/-- C9 counterexample: from the recording state reached by ready-then-
press (recording flag set, stream active), the shutdown path
(`stop_listening`, the only teardown `main`'s finally block runs)
issues zero Pause calls — not the exactly-one the claim requires. -/
theorem C9_counterexample :
    (runC initialState [Event.ready, Event.press]).1.isRecording = true
    ∧ (runC initialState [Event.ready, Event.press]).1.streamActive = true
    ∧ (stopListening (runC initialState [Event.ready, Event.press]).1).2.count
        StreamCall.pause = 0
    ∧ ¬ ((stopListening (runC initialState [Event.ready, Event.press]).1).2.count
        StreamCall.pause = 1) := by decide

/-- C9 amended: shutdown invoked while recording stops the hotkey
listener before returning but forces no Pause: it issues zero stream
calls and leaves the stream's active flag untouched. -/
theorem C9_shutdown_stops_listener_only (s : ControllerState)
    (_h : s.isRecording = true) :
    (stopListening s).2 = []
    ∧ (stopListening s).1.listenerRunning = false
    ∧ (stopListening s).1.streamActive = s.streamActive := by
  simp [stopListening]

/-- C9 witness: the amended statement at the concrete recording state
with an active stream. -/
theorem C9_shutdown_stops_listener_only_witness :
    (stopListening { isRecording := true, streamReady := true,
                     hasTransport := true, streamActive := true,
                     listenerRunning := true }).2 = []
    ∧ (stopListening { isRecording := true, streamReady := true,
                       hasTransport := true, streamActive := true,
                       listenerRunning := true }).1.listenerRunning = false
    ∧ (stopListening { isRecording := true, streamReady := true,
                       hasTransport := true, streamActive := true,
                       listenerRunning := true }).1.streamActive
        = ({ isRecording := true, streamReady := true, hasTransport := true,
             streamActive := true, listenerRunning := true } :
            ControllerState).streamActive :=
  C9_shutdown_stops_listener_only
    { isRecording := true, streamReady := true, hasTransport := true,
      streamActive := true, listenerRunning := true } rfl

/-- C10: a stop-recording signal at a non-empty but whitespace-only
buffer does not reset the buffer — the state is unchanged, nothing is
emitted, and the retained whitespace is prepended to the next
fragment's text. -/
theorem C10_whitespace_buffer_retained (s : BufferState) (t : Str)
    (u : String) (lang : Option String) (_hne : s.buffer ≠ [])
    (h : pyStrip s.buffer = []) :
    (processFrame s (DFrame.clientMessage ("stop-recording"))).1 = s
    ∧ (processFrame s (DFrame.clientMessage ("stop-recording"))).2 = []
    ∧ (processFrame
        (processFrame s (DFrame.clientMessage ("stop-recording"))).1
        (DFrame.transcription t u lang)).1.buffer = s.buffer ++ t := by
  refine ⟨by simp [processFrame, h], by simp [processFrame, h], ?_⟩
  by_cases ht : t = [] <;> simp [processFrame, h, ht]

/-- C10 witness: a single-space buffer is retained across the empty
flush and the next fragment is appended after it. -/
theorem C10_whitespace_buffer_retained_witness :
    (processFrame { buffer := chars (" "), lastUserId := "user",
                    lastLanguage := none }
        (DFrame.clientMessage ("stop-recording"))).1
      = { buffer := chars (" "), lastUserId := "user", lastLanguage := none }
    ∧ (processFrame { buffer := chars (" "), lastUserId := "user",
                      lastLanguage := none }
        (DFrame.clientMessage ("stop-recording"))).2 = []
    ∧ (processFrame
        (processFrame { buffer := chars (" "), lastUserId := "user",
                        lastLanguage := none }
          (DFrame.clientMessage ("stop-recording"))).1
        (DFrame.transcription (chars ("hi")) "user" none)).1.buffer
      = chars (" ") ++ chars ("hi") :=
  C10_whitespace_buffer_retained
    { buffer := chars (" "), lastUserId := "user", lastLanguage := none }
    (chars ("hi")) "user" none (by decide) (by decide)

end Theorems
